import Mathlib

/-!
# Verification of the KPI main service core

Shallow embedding of `src/modules/kpi_entry/kpi_entry.services.ts` (and the
helpers it uses from `src/lib/filters.ts`) into Lean, together with theorems
settling the specification claims about the scoring evaluator, the entry
lifecycle manager, the batch generator and the statistics aggregator.

JavaScript numbers are modelled as `ℚ` (no claim exercises non-finite or
floating-point-specific behaviour); JS `Date` values are modelled as
normalized calendar dates compared lexicographically, which agrees with
timestamp comparison; JS `Array.prototype.sort` (a stable sort) is modelled
by the stable `List.insertionSort`.
-/

namespace KpiService

/-- A JavaScript runtime value as it appears in KPI raw values and scoring
rules: a number, a string, or a boolean. -/
inductive JsValue where
  | num (q : ℚ)
  | str (s : String)
  | bool (b : Bool)
deriving DecidableEq, Repr

/-- JS strict equality `===` on the values we model: equal only when the
runtime types agree and the payloads are equal. -/
def jsStrictEq (a b : JsValue) : Bool := a = b

/-- JS `ToNumber` coercion as exercised by this code base: numbers are
themselves, booleans coerce to 0/1.  Strings would coerce by parsing; no
claim exercises string thresholds, so they are modelled as non-numeric
(`none`, i.e. NaN, making every `>=` comparison false as in JS). -/
def toNum : JsValue → Option ℚ
  | .num q => some q
  | .bool b => some (if b then 1 else 0)
  | .str _ => none

/-- `interface ScoringRule` from `kpi_entry.services.ts`: optional `min`,
`max`, optional exact/threshold `value`, and a `score`. -/
structure ScoringRule where
  min? : Option ℚ
  max? : Option ℚ
  value? : Option JsValue
  score : ℚ
deriving DecidableEq, Repr

/-- `interface TemplateItem` from `kpi_entry.services.ts`.  `kpiType` is kept
as a string exactly as the code compares it. -/
structure TemplateItem where
  name : String
  maxMarks : ℚ
  kpiType : String
  isDynamic : Bool
  scoringRules : List ScoringRule
deriving Repr

/-- The numeric sort key `(rule.value as number)` used by the percentage
comparator; non-numeric (NaN) keys get an arbitrary fixed key, standing in
for the unspecified JS ordering under a NaN comparator (never exercised by
the claims, which only concern numeric thresholds). -/
def ruleNumKey (r : ScoringRule) : ℚ := ((r.value?.bind toNum).getD 0)

/-- Comparator of the percentage branch: `sort((a, b) => b.value - a.value)`,
i.e. descending by threshold. `a` may precede `b` iff `b`'s key ≤ `a`'s. -/
def descByValue (a b : ScoringRule) : Prop := ruleNumKey b ≤ ruleNumKey a

instance : DecidableRel descByValue := fun a b =>
  inferInstanceAs (Decidable (ruleNumKey b ≤ ruleNumKey a))

/-- The test `value >= (rule.value as number)` of the percentage loop; a NaN
threshold compares false. -/
def geThreshold (v : ℚ) (r : ScoringRule) : Bool :=
  match r.value?.bind toNum with
  | some t => v ≥ t
  | none => false

/-- The `for (const rule of sortedRules)` loop of the percentage branch:
first rule whose threshold is ≤ the value wins; otherwise 0. -/
def percentageLoop (v : ℚ) : List ScoringRule → ℚ
  | [] => 0
  | r :: rs => if geThreshold v r then r.score else percentageLoop v rs

/-- Whether a rule matches a value in the generic (`for other types`) loop:
a rule with both `min` and `max` is a range rule (numeric value within the
closed range); otherwise a rule with `value` is an exact-match rule
(strict equality). -/
def ruleMatches (value : JsValue) (r : ScoringRule) : Bool :=
  match r.min?, r.max? with
  | some mn, some mx =>
    match value with
    | .num x => decide (mn ≤ x) && decide (x ≤ mx)
    | _ => false
  | _, _ =>
    match r.value? with
    | some w => jsStrictEq value w
    | _ => false

/-- The generic rule loop of `calculateScore`: single pass over the rules in
declared order, first matching rule wins, default 0. -/
def ruleLoop (value : JsValue) : List ScoringRule → ℚ
  | [] => 0
  | r :: rs => if ruleMatches value r then r.score else ruleLoop value rs

/-- `KpiEntryService.calculateScore` — maps a raw value and scoring rules to
a score.  `score` kind returns a numeric value unchanged; `percentage` kind
sorts the rules with a defined `value` descending by threshold and returns
the first rule whose threshold is ≤ the value; every other case runs the
generic single-pass rule loop. -/
def calculateScore (value : JsValue) (scoringRules : List ScoringRule)
    (kpiType : Option String) : ℚ :=
  match kpiType, value with
  | some "score", .num x => x
  | some "percentage", .num v =>
    percentageLoop v
      (List.insertionSort descByValue (scoringRules.filter (·.value?.isSome)))
  | _, _ => ruleLoop value scoringRules

instance : IsTotal ScoringRule descByValue :=
  ⟨fun a b => le_total (ruleNumKey b) (ruleNumKey a)⟩

instance : IsTrans ScoringRule descByValue :=
  ⟨fun _ _ _ h1 h2 => le_trans h2 h1⟩

lemma percentageLoop_eq_zero {v : ℚ} {rs : List ScoringRule}
    (h : ∀ r ∈ rs, geThreshold v r = false) : percentageLoop v rs = 0 := by
  induction rs with
  | nil => rfl
  | cons r tl ih =>
    simp only [percentageLoop, h r (List.mem_cons_self r tl)]
    exact ih fun r' hr' => h r' (List.mem_cons_of_mem r hr')

lemma percentageLoop_first_match {v : ℚ} {rs : List ScoringRule}
    (hsorted : rs.Sorted descByValue) (hex : ∃ r ∈ rs, geThreshold v r = true) :
    ∃ r ∈ rs, geThreshold v r = true ∧ percentageLoop v rs = r.score ∧
      ∀ r' ∈ rs, geThreshold v r' = true → ruleNumKey r' ≤ ruleNumKey r := by
  induction rs with
  | nil => simp at hex
  | cons r tl ih =>
    rw [List.sorted_cons] at hsorted
    by_cases hr : geThreshold v r = true
    · refine ⟨r, List.mem_cons_self r tl, hr, by simp [percentageLoop, hr], ?_⟩
      intro r' hr' _
      rcases List.mem_cons.mp hr' with h | h
      · exact le_of_eq (congrArg ruleNumKey h)
      · exact hsorted.1 r' h
    · have hex' : ∃ r' ∈ tl, geThreshold v r' = true := by
        rcases hex with ⟨r0, hr0, hg0⟩
        rcases List.mem_cons.mp hr0 with h | h
        · exact absurd (h ▸ hg0) hr
        · exact ⟨r0, h, hg0⟩
      rcases ih hsorted.2 hex' with ⟨r1, hr1, hg1, hloop, hmax⟩
      refine ⟨r1, List.mem_cons_of_mem r hr1, hg1, ?_, ?_⟩
      · simpa [percentageLoop, hr] using hloop
      · intro r' hr' hg'
        rcases List.mem_cons.mp hr' with h | h
        · exact absurd (h ▸ hg') hr
        · exact hmax r' h hg'

/-- The numeric-threshold hypothesis: every scoring rule carrying a `value`
carries a numeric one. -/
def NumericThresholds (rules : List ScoringRule) : Prop :=
  ∀ r ∈ rules, ∀ w, r.value? = some w → ∃ q : ℚ, w = JsValue.num q

lemma geThreshold_of_numeric {v q : ℚ} {r : ScoringRule}
    (h : r.value? = some (JsValue.num q)) :
    geThreshold v r = decide (v ≥ q) := by
  simp [geThreshold, h, toNum]

lemma ruleNumKey_of_numeric {q : ℚ} {r : ScoringRule}
    (h : r.value? = some (JsValue.num q)) : ruleNumKey r = q := by
  simp [ruleNumKey, h, toNum]

/-- The three-rule percentage example of the spec. -/
def c1rules : List ScoringRule :=
  [⟨none, none, some (.num 90), 10⟩, ⟨none, none, some (.num 75), 7⟩,
   ⟨none, none, some (.num 50), 4⟩]

/-- C1: for a percentage-kind item with numeric raw value `v` and numeric
rule thresholds, `calculateScore` returns 0 when `v` is below every
threshold, and otherwise the score of a rule whose threshold is the greatest
threshold ≤ `v`; for the rules `[{90,10},{75,7},{50,4}]`, value 80 scores 7,
95 scores 10, and 40 scores 0. -/
theorem calculateScore_percentage_greatest_threshold
    (v : ℚ) (rules : List ScoringRule) (hnum : NumericThresholds rules) :
    ((∀ r ∈ rules, ∀ q : ℚ, r.value? = some (JsValue.num q) → v < q) →
      calculateScore (.num v) rules (some "percentage") = 0) ∧
    ((∃ r ∈ rules, ∃ q : ℚ, r.value? = some (JsValue.num q) ∧ q ≤ v) →
      ∃ r ∈ rules, ∃ q : ℚ, r.value? = some (JsValue.num q) ∧ q ≤ v ∧
        calculateScore (.num v) rules (some "percentage") = r.score ∧
        ∀ r' ∈ rules, ∀ q' : ℚ, r'.value? = some (JsValue.num q') → q' ≤ v → q' ≤ q) ∧
    calculateScore (.num 80) c1rules (some "percentage") = 7 ∧
    calculateScore (.num 95) c1rules (some "percentage") = 10 ∧
    calculateScore (.num 40) c1rules (some "percentage") = 0 := by
  have hcalc : calculateScore (.num v) rules (some "percentage") =
      percentageLoop v
        (List.insertionSort descByValue (rules.filter (·.value?.isSome))) := rfl
  set l := rules.filter (·.value?.isSome) with hl
  set s := List.insertionSort descByValue l with hs
  have hperm : List.Perm s l := List.perm_insertionSort descByValue l
  have hmem_s_iff : ∀ r, r ∈ s ↔ r ∈ l := fun r => hperm.mem_iff
  have hmem_l : ∀ r ∈ l, r ∈ rules ∧ r.value?.isSome := by
    intro r hr
    have := List.mem_filter.mp hr
    exact ⟨this.1, by simpa using this.2⟩
  refine ⟨?_, ?_, by decide, by decide, by decide⟩
  · intro hbelow
    rw [hcalc]
    apply percentageLoop_eq_zero
    intro r hr
    obtain ⟨hrules, hsome⟩ := hmem_l r ((hmem_s_iff r).mp hr)
    obtain ⟨w, hw⟩ := Option.isSome_iff_exists.mp hsome
    obtain ⟨q, rfl⟩ := hnum r hrules w hw
    rw [geThreshold_of_numeric hw]
    simpa using hbelow r hrules q hw
  · intro hex
    obtain ⟨r0, hr0, q0, hq0, hq0le⟩ := hex
    have hr0l : r0 ∈ l := List.mem_filter.mpr ⟨hr0, by simp [hq0]⟩
    have hex' : ∃ r ∈ s, geThreshold v r = true := by
      refine ⟨r0, (hmem_s_iff r0).mpr hr0l, ?_⟩
      rw [geThreshold_of_numeric hq0]
      simpa using hq0le
    obtain ⟨r1, hr1, hg1, hloop, hmax⟩ :=
      percentageLoop_first_match (List.sorted_insertionSort descByValue l) hex'
    obtain ⟨hr1rules, hsome1⟩ := hmem_l r1 ((hmem_s_iff r1).mp hr1)
    obtain ⟨w1, hw1⟩ := Option.isSome_iff_exists.mp hsome1
    obtain ⟨q1, rfl⟩ := hnum r1 hr1rules w1 hw1
    have hq1le : q1 ≤ v := by
      rw [geThreshold_of_numeric hw1] at hg1
      simpa using hg1
    refine ⟨r1, hr1rules, q1, hw1, hq1le, by rw [hcalc, hloop], ?_⟩
    intro r' hr' q' hw' hq'le
    have hr'l : r' ∈ l := List.mem_filter.mpr ⟨hr', by simp [hw']⟩
    have := hmax r' ((hmem_s_iff r').mpr hr'l)
      (by rw [geThreshold_of_numeric hw']; simpa using hq'le)
    rwa [ruleNumKey_of_numeric hw', ruleNumKey_of_numeric hw1] at this

theorem calculateScore_percentage_greatest_threshold_witness :
    calculateScore (.num 80) c1rules (some "percentage") = 7 :=
  (calculateScore_percentage_greatest_threshold 80 c1rules (by
    intro r hr w hw
    fin_cases hr <;> exact ⟨_, (Option.some_injective _ hw).symm⟩)).2.2.1

lemma ruleLoop_eq_zero {value : JsValue} {rs : List ScoringRule}
    (h : ∀ r ∈ rs, ruleMatches value r = false) : ruleLoop value rs = 0 := by
  induction rs with
  | nil => rfl
  | cons r tl ih =>
    simp only [ruleLoop, h r (List.mem_cons_self r tl)]
    exact ih fun r' hr' => h r' (List.mem_cons_of_mem r hr')

lemma ruleLoop_append_first_match {value : JsValue} {pre post : List ScoringRule}
    {r : ScoringRule} (hpre : ∀ r' ∈ pre, ruleMatches value r' = false)
    (hr : ruleMatches value r = true) :
    ruleLoop value (pre ++ r :: post) = r.score := by
  induction pre with
  | nil => simp [ruleLoop, hr]
  | cons p tl ih =>
    simp only [List.cons_append, ruleLoop, hpre p (List.mem_cons_self p tl)]
    exact ih fun r' hr' => hpre r' (List.mem_cons_of_mem p hr')

/-- A rule list containing an exact-match rule for 5 declared before a range
rule covering 5: the code returns the exact rule's score. -/
def c6rules : List ScoringRule :=
  [⟨none, none, some (.num 5), 1⟩, ⟨some 0, some 10, none, 2⟩]

/-- C6 counterexample: the spec says range rules are tried before
exact-match rules, so on `c6rules` at value 5 the later range rule's score 2
should win; the code makes a single pass in declared order and returns the
earlier exact rule's score 1. -/
theorem calculateScore_generic_counterexample :
    ruleMatches (.num 5) ⟨none, none, some (.num 5), 1⟩ = true ∧
    ruleMatches (.num 5) ⟨some 0, some 10, none, 2⟩ = true ∧
    calculateScore (.num 5) c6rules (some "quantitative") = 1 ∧ (1 : ℚ) ≠ 2 := by
  refine ⟨by decide, by decide, by decide, by norm_num⟩

/-- C6 (amended): for quantitative, binary and qualitative items the
evaluator makes a single pass over the rules in declared order — a rule with
both `min` and `max` acts as a range rule, any other rule with a `value`
acts as an exact-match rule — and the first matching rule's score is
returned; if no rule matches the result is 0.  In particular an exact-match
rule declared earlier wins over a matching range rule declared later. -/
theorem calculateScore_generic_first_match (value : JsValue)
    (rules : List ScoringRule) (kt : Option String)
    (hkt : kt = some "quantitative" ∨ kt = some "binary" ∨ kt = some "qualitative") :
    calculateScore value rules kt = ruleLoop value rules ∧
    ((∀ r ∈ rules, ruleMatches value r = false) → ruleLoop value rules = 0) ∧
    (∀ pre r post, rules = pre ++ r :: post →
      (∀ r' ∈ pre, ruleMatches value r' = false) → ruleMatches value r = true →
      ruleLoop value rules = r.score) := by
  refine ⟨?_, fun h => ruleLoop_eq_zero h, ?_⟩
  · rcases hkt with rfl | rfl | rfl <;> cases value <;> rfl
  · intro pre r post hsplit hpre hr
    rw [hsplit]
    exact ruleLoop_append_first_match hpre hr

theorem calculateScore_generic_first_match_witness :
    calculateScore (.num 5) c6rules (some "quantitative") = 1 := by
  have h := calculateScore_generic_first_match (.num 5) c6rules
    (some "quantitative") (Or.inl rfl)
  have h2 := h.2.2 [] ⟨none, none, some (.num 5), 1⟩ [⟨some 0, some 10, none, 2⟩]
    rfl (by simp) (by decide)
  rw [h.1, h2]

/-! ## Dates

JS `Date` values, as far as the service uses them: calendar fields compared
by timestamp.  For normalized dates, timestamp order is the lexicographic
order on (year, month, day, time-of-day), which is how comparison is
modelled.  `mkJsDate` covers the argument normalization the source
exercises (`new Date(year, month - 1, 1)` and `new Date(year, month, 0)`:
month overflow, and day 0 meaning the last day of the previous month). -/

/-- Proleptic Gregorian leap year, as used by JS `Date`. -/
def isLeapYear (y : Int) : Bool :=
  (y.emod 4 = 0 && y.emod 100 ≠ 0) || y.emod 400 = 0

/-- Days in a (0-based) month of a year. -/
def daysInMonth (y m0 : Int) : Int :=
  if m0 = 1 then (if isLeapYear y then 29 else 28)
  else if m0 = 3 || m0 = 5 || m0 = 8 || m0 = 10 then 30
  else 31

/-- A normalized JS date: 0-based month, 1-based day, and the time of day
collapsed to minutes (claims never distinguish finer granularity). -/
structure JsDate where
  year : Int
  month0 : Int
  day : Int
  mins : Int
deriving DecidableEq, Repr

/-- `new Date(y, m, d)` for the shapes the source uses: normalizes month
overflow (floor-division into the year) and day 0 (last day of the previous
month), at midnight. -/
def mkJsDate (y m d : Int) : JsDate :=
  let y1 := y + m.fdiv 12
  let m1 := m.emod 12
  if d = 0 then
    if m1 = 0 then ⟨y1 - 1, 11, daysInMonth (y1 - 1) 11, 0⟩
    else ⟨y1, m1 - 1, daysInMonth y1 (m1 - 1), 0⟩
  else ⟨y1, m1, d, 0⟩

/-- Timestamp comparison of normalized dates: lexicographic. -/
def JsDate.le (a b : JsDate) : Bool :=
  if a.year ≠ b.year then a.year < b.year
  else if a.month0 ≠ b.month0 then a.month0 < b.month0
  else if a.day ≠ b.day then a.day < b.day
  else a.mins ≤ b.mins

/-! ## Directory, templates and entries -/

/-- The slice of member metadata the service reads: `kpirefs` (jurisdiction
references) and `jurisdiction`.  The source reads them as
`member.metadata?.kpirefs || []` / `member.metadata.jurisdiction || []`;
absence collapses to the empty list. -/
structure MemberMetadata where
  kpirefs : List String
  jurisdiction : List String
deriving DecidableEq, Repr

/-- A member directory record (presentational fields such as name and email
are omitted; no claim mentions them). -/
structure Member where
  userId : String
  role : String
  departmentSlug : String
  metadata : MemberMetadata
deriving DecidableEq, Repr

/-- `filterExcludedMembers` from `src/lib/filters.ts`: drop members holding
a `nodalOfficer-` role and members of the `collector-office` department. -/
def filterExcludedMembers (members : List Member) : List Member :=
  members.filter fun member =>
    !(member.role.startsWith "nodalOfficer-") &&
      member.departmentSlug ≠ "collector-office"

/-- A KPI template (`kpi_template.model.ts`): department/role it applies to
and its ordered items. -/
structure KpiTemplate where
  name : String
  departmentSlug : String
  role : String
  template : List TemplateItem

/-- A submitted raw value (`updateKpiEntryValues` body element). -/
structure InputValue where
  name : String
  value : JsValue
  score? : Option ℚ
  comments? : Option String
  isByPassed : Bool
deriving DecidableEq, Repr

/-- A validated value as stored on an entry: the computed (or bypassed)
score replaces the submitted one. -/
structure ValueEntry where
  name : String
  value : JsValue
  score : ℚ
  comments? : Option String
  isByPassed : Bool
deriving DecidableEq, Repr

/-- A stored KPI entry (`kpi_entry.model.ts`).  `kpirefs?` is the single
jurisdiction reference this entry covers, absent for undivided members;
`createdAt` is the insertion timestamp set by the store. -/
structure KpiEntry where
  id : String
  kpiTemplateId : String
  createdFor : String
  values : List ValueEntry
  totalScore : ℚ
  status : String
  createdBy : String
  month : Int
  year : Int
  kpirefs? : Option String
  jurisdiction : List String
  createdAt : JsDate
deriving DecidableEq, Repr

/-- The persistent store: the KPI entry collection. -/
structure DB where
  entries : List KpiEntry
deriving DecidableEq, Repr

/-- `Model.findById`. -/
def DB.findById (db : DB) (id : String) : Option KpiEntry :=
  db.entries.find? (·.id = id)

/-- `Model.findByIdAndUpdate` (ids are unique in the store, so updating
every match coincides with updating the one match). -/
def DB.updateById (db : DB) (id : String) (f : KpiEntry → KpiEntry) : DB :=
  ⟨db.entries.map fun e => if e.id = id then f e else e⟩

/-- An `APIError` as thrown by the service: HTTP status and title (the
human message is not modelled). -/
structure APIError where
  status : Nat
  title : String
deriving DecidableEq, Repr

/-- The external collaborators of the service and the wall clock, fixed for
the duration of one call. -/
structure Env where
  getTemplate : String → Option KpiTemplate
  getMemberByUserId : String → Option Member
  getMembers : Option String → Option String → List Member
  now : JsDate

/-! ## Validation and scoring of submitted values -/

/-- `KpiEntryService.validateRequiredValues`: every non-dynamic template
item must appear among the submitted names. -/
def validateRequiredValues (values : List InputValue)
    (templateItems : List TemplateItem) : Except APIError Unit :=
  let providedKpiNames := values.map (·.name)
  let missingNonDynamicKpis :=
    (templateItems.filter fun item =>
      !item.isDynamic && !providedKpiNames.contains item.name).map (·.name)
  if missingNonDynamicKpis.length > 0 then
    .error ⟨400, "Missing required values"⟩
  else .ok ()

/-- One iteration of the `validateAndCalculateScores` loop: `none` when the
submitted name matches no template item (skipped with a warning). -/
def scoreOneValue (templateItems : List TemplateItem) (v : InputValue) :
    Except APIError (Option ValueEntry) :=
  match templateItems.find? (·.name = v.name) with
  | none => .ok none
  | some templateItem =>
    if v.isByPassed then
      match v.score? with
      | none => .error ⟨400, "Missing score field"⟩
      | some s => .ok (some ⟨v.name, v.value, s, v.comments?, v.isByPassed⟩)
    else
      let typeOk : Except APIError Unit :=
        if templateItem.kpiType = "quantitative" ||
            templateItem.kpiType = "percentage" ||
            templateItem.kpiType = "score" then
          match v.value with
          | .num _ => .ok ()
          | _ => .error ⟨400, "Invalid value type"⟩
        else if templateItem.kpiType = "binary" then
          match v.value with
          | .bool _ => .ok ()
          | _ => .error ⟨400, "Invalid value type"⟩
        else .ok ()
      match typeOk with
      | .error e => .error e
      | .ok _ =>
        .ok (some ⟨v.name, v.value,
          calculateScore v.value templateItem.scoringRules (some templateItem.kpiType),
          v.comments?, v.isByPassed⟩)

/-- The `for (const value of values)` loop of `validateAndCalculateScores`,
in submission order, first error wins. -/
def scoreValuesLoop (templateItems : List TemplateItem) :
    List InputValue → Except APIError (List ValueEntry)
  | [] => .ok []
  | v :: rest =>
    match scoreOneValue templateItems v with
    | .error e => .error e
    | .ok res =>
      match scoreValuesLoop templateItems rest with
      | .error e => .error e
      | .ok tail =>
        .ok (match res with | some ve => ve :: tail | none => tail)

/-- `KpiEntryService.validateAndCalculateScores`. -/
def validateAndCalculateScores (values : List InputValue)
    (templateItems : List TemplateItem) : Except APIError (List ValueEntry) :=
  match validateRequiredValues values templateItems with
  | .error e => .error e
  | .ok _ => scoreValuesLoop templateItems values

/-! ## Entry lifecycle: submitting values -/

/-- `KpiEntryService.validateNodalOfficerPermission`: `collector-office`
actors may update anything; otherwise the role must start with
`nodalOfficer-` and the entry's subject member's role must equal the target
role encoded after that identifier (JS `replace` of the leading prefix). -/
def validateNodalOfficerPermission (env : Env) (userRole userDepartment : String)
    (entry : KpiEntry) : Bool :=
  if userDepartment = "collector-office" then true
  else if !(userRole.startsWith "nodalOfficer-") then false
  else
    let targetRole := userRole.drop "nodalOfficer-".length
    match env.getMemberByUserId entry.createdFor with
    | none => false
    | some member => member.role = targetRole

/-- `KpiEntryService.updateKpiEntryValues`.  Returns the store as left by
the call (errors are thrown before the single write, so they return the
store untouched) together with the outcome. -/
def updateKpiEntryValues (env : Env) (db : DB) (entryId : String)
    (values : List InputValue) (updatedBy : String) :
    DB × Except APIError KpiEntry :=
  match db.findById entryId with
  | none => (db, .error ⟨404, "KPI Entry Not Found"⟩)
  | some entry =>
    if entry.status = "generated" then
      (db, .error ⟨400, "Entry Already Generated"⟩)
    else if env.now.month0 + 1 ≠ entry.month || env.now.year ≠ entry.year then
      (db, .error ⟨400, "Update Period Expired"⟩)
    else
      -- `if (userRole && userDepartment)`: the permission check only runs
      -- when the actor resolves to a member with truthy role and department.
      let denied :=
        match env.getMemberByUserId updatedBy with
        | some m =>
          m.role ≠ "" && m.departmentSlug ≠ "" &&
            !(validateNodalOfficerPermission env m.role m.departmentSlug entry)
        | none => false
      if denied then (db, .error ⟨403, "Permission Denied"⟩)
      else
        match env.getTemplate entry.kpiTemplateId with
        | none => (db, .error ⟨404, "KPI Template Not Found"⟩)
        | some template =>
          match validateAndCalculateScores values template.template with
          | .error e => (db, .error e)
          | .ok validatedValues =>
            let totalScore := validatedValues.foldl (fun sum v => sum + v.score) 0
            let updated := fun e =>
              { e with values := validatedValues, totalScore := totalScore,
                       status := "initiated" }
            (db.updateById entryId updated, .ok (updated entry))

/-! ## Batch generation of default entries -/

/-- Result payload of `generateDefaultKpiEntries`. -/
structure GenerateResult where
  entriesCount : Nat
  membersCount : Nat
  entries : List KpiEntry
deriving DecidableEq, Repr

/-- The default entry built for one member (and possibly one jurisdiction
reference); the store assigns ids, which no claim observes, so they are
modelled as `""`; `createdAt` is the insertion time. -/
def defaultEntry (templateId : String) (month year : Int) (generatedBy : String)
    (member : Member) (kpiref? : Option String) (now : JsDate) : KpiEntry :=
  { id := "", kpiTemplateId := templateId, createdFor := member.userId,
    values := [], totalScore := 0, status := "created",
    createdBy := generatedBy, month := month, year := year,
    kpirefs? := kpiref?, jurisdiction := member.metadata.jurisdiction,
    createdAt := now }

/-- The per-member body of the generation loop: one entry without a
reference for members with zero `kpirefs`, otherwise one entry per
reference. -/
def memberDefaultEntries (templateId : String) (month year : Int)
    (generatedBy : String) (now : JsDate) (member : Member) : List KpiEntry :=
  let kpirefs := member.metadata.kpirefs
  if kpirefs.length = 0 then
    [defaultEntry templateId month year generatedBy member none now]
  else
    kpirefs.map fun kpiref =>
      defaultEntry templateId month year generatedBy member (some kpiref) now

/-- `KpiEntryService.generateDefaultKpiEntries`.  Returns the store as left
by the call together with the outcome. -/
def generateDefaultKpiEntries (env : Env) (db : DB) (templateId : String)
    (month year : Int) (generatedBy : String) :
    DB × Except APIError GenerateResult :=
  match env.getTemplate templateId with
  | none => (db, .error ⟨404, "KPI Template Not Found"⟩)
  | some template =>
    let allMembers := env.getMembers (some template.departmentSlug) (some template.role)
    let filteredMembers := filterExcludedMembers allMembers
    let startDate := mkJsDate year (month - 1) 1
    let endDate := mkJsDate year month 0
    let existingEntries := db.entries.filter fun e =>
      e.kpiTemplateId = templateId && e.month = month && e.year = year &&
        (filteredMembers.map (·.userId)).contains e.createdFor &&
        JsDate.le startDate e.createdAt && JsDate.le e.createdAt endDate
    if existingEntries.length > 0 then
      (db, .error ⟨409, "Entries Already Exist"⟩)
    else
      let entriesToCreate :=
        filteredMembers.flatMap (memberDefaultEntries templateId month year generatedBy env.now)
      (⟨db.entries ++ entriesToCreate⟩,
        .ok ⟨entriesToCreate.length, filteredMembers.length, entriesToCreate⟩)

/-! ## Claims about the entry lifecycle -/

/-- An environment in which no template, member or date is resolvable; the
wall clock reads 15 October 2025. -/
def c2env : Env :=
  { getTemplate := fun _ => none, getMemberByUserId := fun _ => none,
    getMembers := fun _ _ => [], now := ⟨2025, 9, 15, 0⟩ }

/-- A finalized entry for October 2025. -/
def c2entry : KpiEntry :=
  { id := "e1", kpiTemplateId := "t1", createdFor := "m1", values := [],
    totalScore := 0, status := "generated", createdBy := "system",
    month := 10, year := 2025, kpirefs? := none, jurisdiction := [],
    createdAt := ⟨2025, 9, 1, 0⟩ }

def c2db : DB := ⟨[c2entry]⟩

/-- C2 counterexample: submitting values against a `generated` entry is
rejected, but with HTTP status 400 ("Entry Already Generated"), not with
the 409 Conflict status the service uses for conflicts (as in its duplicate
generation guard). -/
theorem updateKpiEntryValues_generated_not_conflict :
    updateKpiEntryValues c2env c2db "e1" [] "anyone" =
      (c2db, .error ⟨400, "Entry Already Generated"⟩) ∧ (400 : Nat) ≠ 409 := by
  exact ⟨rfl, by decide⟩

/-- C2 (amended): for every entry whose status is `generated` and every
actor and value list, `updateKpiEntryValues` fails with a 400-status error
titled "Entry Already Generated" — not a 409 Conflict — and leaves the
store unchanged, regardless of who the actor is. -/
theorem updateKpiEntryValues_generated_rejects (env : Env) (db : DB)
    (entryId : String) (values : List InputValue) (updatedBy : String)
    (entry : KpiEntry) (hfind : db.findById entryId = some entry)
    (hstatus : entry.status = "generated") :
    updateKpiEntryValues env db entryId values updatedBy =
      (db, .error ⟨400, "Entry Already Generated"⟩) := by
  unfold updateKpiEntryValues
  rw [hfind]
  simp [hstatus]

theorem updateKpiEntryValues_generated_rejects_witness :
    c2db.findById "e1" = some c2entry ∧ c2entry.status = "generated" ∧
    updateKpiEntryValues c2env c2db "e1" [] "anyone" =
      (c2db, .error ⟨400, "Entry Already Generated"⟩) :=
  ⟨rfl, rfl, updateKpiEntryValues_generated_rejects c2env c2db "e1" [] "anyone"
    c2entry rfl rfl⟩

/-- A template with no items, so an empty submission passes validation. -/
def c3template : KpiTemplate := ⟨"T", "revenue-department", "tehsildar", []⟩

/-- A fresh entry for October 2025, the current period of `c3env`. -/
def c3entry : KpiEntry :=
  { id := "e1", kpiTemplateId := "t1", createdFor := "m1", values := [],
    totalScore := 0, status := "created", createdBy := "system",
    month := 10, year := 2025, kpirefs? := none, jurisdiction := [],
    createdAt := ⟨2025, 9, 1, 0⟩ }

def c3db : DB := ⟨[c3entry]⟩

/-- October 2025, template `t1` resolvable, but `getMemberByUserId` knows
nobody — in particular the acting user has no member record. -/
def c3env : Env :=
  { getTemplate := fun id => if id = "t1" then some c3template else none,
    getMemberByUserId := fun _ => none,
    getMembers := fun _ _ => [], now := ⟨2025, 9, 15, 0⟩ }

/-- C3: an actor with no member record — who therefore neither belongs to
`collector-office` nor holds any `nodalOfficer-` role — is NOT rejected:
because `updateKpiEntryValues` guards the permission check with
`if (userRole && userDepartment)`, an unresolvable actor skips the check
entirely and the entry is updated to `initiated`.  The code's own
documentation says only nodal officers may update entries, so this is a
code bug rather than a spec error. -/
theorem updateKpiEntryValues_permission_bypass :
    c3env.getMemberByUserId "ghost" = none ∧
    updateKpiEntryValues c3env c3db "e1" [] "ghost" =
      (⟨[{ c3entry with status := "initiated" }]⟩,
        .ok { c3entry with status := "initiated" }) :=
  ⟨rfl, rfl⟩

def c10env : Env :=
  { getTemplate := fun _ => none, getMemberByUserId := fun _ => none,
    getMembers := fun _ _ => [], now := ⟨2025, 9, 15, 0⟩ }

/-- C10: `updateKpiEntryValues` is atomic — every failing call (entry not
found, already generated, period expired, permission denied, template
missing, or any validation error) leaves the store exactly as it was; all
validation and scoring complete before the single persistence write. -/
theorem updateKpiEntryValues_atomic (env : Env) (db db' : DB) (entryId : String)
    (values : List InputValue) (updatedBy : String) (e : APIError)
    (h : updateKpiEntryValues env db entryId values updatedBy = (db', .error e)) :
    db' = db := by
  unfold updateKpiEntryValues at h
  cases hfind : db.findById entryId with
  | none => rw [hfind] at h; exact ((Prod.ext_iff.mp h).1).symm
  | some entry =>
    rw [hfind] at h
    by_cases h1 : entry.status = "generated"
    · simp only [if_pos h1] at h; exact ((Prod.ext_iff.mp h).1).symm
    · simp only [if_neg h1] at h
      by_cases h2 : (env.now.month0 + 1 ≠ entry.month || env.now.year ≠ entry.year) = true
      · simp only [if_pos h2] at h; exact ((Prod.ext_iff.mp h).1).symm
      · simp only [if_neg h2] at h
        by_cases h3 : (match env.getMemberByUserId updatedBy with
          | some m => m.role ≠ "" && m.departmentSlug ≠ "" &&
              !(validateNodalOfficerPermission env m.role m.departmentSlug entry)
          | none => false) = true
        · simp only [if_pos h3] at h; exact ((Prod.ext_iff.mp h).1).symm
        · simp only [if_neg h3] at h
          cases htmpl : env.getTemplate entry.kpiTemplateId with
          | none => rw [htmpl] at h; exact ((Prod.ext_iff.mp h).1).symm
          | some template =>
            rw [htmpl] at h
            dsimp only at h
            cases hval : validateAndCalculateScores values template.template with
            | error e' => rw [hval] at h; exact ((Prod.ext_iff.mp h).1).symm
            | ok vv =>
              rw [hval] at h
              exact absurd ((Prod.ext_iff.mp h).2) (by simp)

theorem updateKpiEntryValues_atomic_witness :
    updateKpiEntryValues c10env ⟨[]⟩ "missing" [] "actor" =
      ((⟨[]⟩ : DB), .error ⟨404, "KPI Entry Not Found"⟩) ∧ (⟨[]⟩ : DB) = ⟨[]⟩ :=
  ⟨rfl, updateKpiEntryValues_atomic c10env ⟨[]⟩ ⟨[]⟩ "missing" [] "actor"
    ⟨404, "KPI Entry Not Found"⟩ rfl⟩

/-! ## Claims about batch generation -/

lemma memberDefaultEntries_fields {templateId : String} {month year : Int}
    {g : String} {now : JsDate} {member : Member} {e : KpiEntry}
    (he : e ∈ memberDefaultEntries templateId month year g now member) :
    e.kpiTemplateId = templateId ∧ e.month = month ∧ e.year = year ∧
      e.createdFor = member.userId ∧ e.createdAt = now := by
  unfold memberDefaultEntries at he
  by_cases h : member.metadata.kpirefs.length = 0
  · simp only [if_pos h, List.mem_singleton] at he
    subst he; exact ⟨rfl, rfl, rfl, rfl, rfl⟩
  · simp only [if_neg h, List.mem_map] at he
    obtain ⟨k, _, rfl⟩ := he
    exact ⟨rfl, rfl, rfl, rfl, rfl⟩

lemma memberDefaultEntries_kpirefs (templateId : String) (month year : Int)
    (g : String) (now : JsDate) (member : Member) :
    (memberDefaultEntries templateId month year g now member).map (·.kpirefs?) =
      if member.metadata.kpirefs = [] then [none]
      else member.metadata.kpirefs.map some := by
  unfold memberDefaultEntries
  by_cases h : member.metadata.kpirefs.length = 0
  · rw [List.length_eq_zero] at h
    simp [h, defaultEntry]
  · have h' : ¬member.metadata.kpirefs = [] := fun hnil => h (by simp [hnil])
    rw [if_neg h, if_neg h', List.map_map]
    rfl

lemma filter_flatMap_userId (f : Member → List KpiEntry)
    (hf : ∀ mb e, e ∈ f mb → e.createdFor = mb.userId) :
    ∀ (l : List Member), l.Pairwise (fun a b => a.userId ≠ b.userId) →
      ∀ member ∈ l,
        (l.flatMap f).filter (fun e => e.createdFor = member.userId) = f member := by
  intro l
  induction l with
  | nil => intro _ member hm; simp at hm
  | cons a t ih =>
    intro hp member hm
    rw [List.pairwise_cons] at hp
    rw [List.flatMap_cons, List.filter_append]
    rcases List.mem_cons.mp hm with rfl | hmt
    · have h1 : (f member).filter (fun e => e.createdFor = member.userId) = f member :=
        List.filter_eq_self.mpr fun e he => by simp [hf member e he]
      have h2 : (t.flatMap f).filter (fun e => e.createdFor = member.userId) = [] := by
        apply List.filter_eq_nil_iff.mpr
        intro e he
        obtain ⟨mb, hmb, hemb⟩ := List.mem_flatMap.mp he
        simp only [hf mb e hemb, decide_eq_true_eq]
        exact fun hEq => (hp.1 mb hmb) hEq.symm
      rw [h1, h2, List.append_nil]
    · have h1 : (f a).filter (fun e => e.createdFor = member.userId) = [] := by
        apply List.filter_eq_nil_iff.mpr
        intro e he
        simp only [hf a e he, decide_eq_true_eq]
        exact hp.1 member hmt
      rw [h1, List.nil_append]
      exact ih hp.2 member hmt

/-- Eliminator for a successful `generateDefaultKpiEntries` call: the
template resolved, and the result is the member fan-out appended to the
store. -/
lemma generateDefault_ok_elim {env : Env} {db0 db1 : DB} {templateId : String}
    {month year : Int} {g : String} {res : GenerateResult}
    (hok : generateDefaultKpiEntries env db0 templateId month year g = (db1, .ok res)) :
    ∃ template, env.getTemplate templateId = some template ∧
      res.entries =
        (filterExcludedMembers
            (env.getMembers (some template.departmentSlug) (some template.role))).flatMap
          (memberDefaultEntries templateId month year g env.now) ∧
      res.entriesCount = res.entries.length ∧
      db1 = ⟨db0.entries ++ res.entries⟩ := by
  unfold generateDefaultKpiEntries at hok
  cases htmpl : env.getTemplate templateId with
  | none => rw [htmpl] at hok; exact absurd (Prod.ext_iff.mp hok).2 (by simp)
  | some template =>
    rw [htmpl] at hok
    dsimp only at hok
    split at hok
    · exact absurd (Prod.ext_iff.mp hok).2 (by simp)
    · rw [Prod.mk.injEq] at hok
      obtain ⟨h1, h2⟩ := hok
      have h3 := Except.ok.inj h2
      exact ⟨template, rfl, by rw [← h3], by rw [← h3], by rw [← h1, ← h3]⟩

/-- C4 counterexample: both calls run at noon on 31 March 2025 (the last
day of the generated month).  The duplicate guard only sees entries whose
`createdAt` lies in [1 March 00:00, 31 March 00:00], so the entries the
first call inserted at 12:00 are invisible to it; the second call succeeds
and the store ends up with two entries instead of one. -/
def c4member : Member := ⟨"m1", "tehsildar", "revenue-department", ⟨[], []⟩⟩

def c4template : KpiTemplate := ⟨"T", "revenue-department", "tehsildar", []⟩

/-- 31 March 2025, 12:00. -/
def c4env : Env :=
  { getTemplate := fun id => if id = "t1" then some c4template else none,
    getMemberByUserId := fun _ => none,
    getMembers := fun dept role =>
      if dept = some "revenue-department" && role = some "tehsildar" then [c4member]
      else [],
    now := ⟨2025, 2, 31, 720⟩ }

def c4entry : KpiEntry := defaultEntry "t1" 3 2025 "system" c4member none c4env.now

def c4run1 : DB × Except APIError GenerateResult :=
  generateDefaultKpiEntries c4env ⟨[]⟩ "t1" 3 2025 "system"

def c4run2 : DB × Except APIError GenerateResult :=
  generateDefaultKpiEntries c4env c4run1.1 "t1" 3 2025 "system"

theorem generateDefaultKpiEntries_duplicate_counterexample :
    c4run1.2 = .ok ⟨1, 1, [c4entry]⟩ ∧
    c4run2.2 = .ok ⟨1, 1, [c4entry]⟩ ∧
    c4run2.1.entries.length = 2 :=
  ⟨rfl, rfl, rfl⟩

/-- C4 (amended): a second `generateDefaultKpiEntries` call with identical
(template, month, year) after a successful first call that inserted at
least one entry fails with 409 Conflict and leaves the stored entries
unchanged — provided the insertion time of the first call lies inside the
window [first day of the month 00:00, last day of the month 00:00] that the
duplicate guard filters `createdAt` by (with an unchanged wall clock and
member directory); outside that window the guard does not see the first
call's entries and duplicates are inserted. -/
theorem generateDefaultKpiEntries_second_call_conflict
    (env : Env) (db0 db1 : DB) (templateId : String) (month year : Int)
    (g g' : String) (res : GenerateResult)
    (hok : generateDefaultKpiEntries env db0 templateId month year g = (db1, .ok res))
    (hcount : 0 < res.entriesCount)
    (hwin1 : JsDate.le (mkJsDate year (month - 1) 1) env.now = true)
    (hwin2 : JsDate.le env.now (mkJsDate year month 0) = true) :
    generateDefaultKpiEntries env db1 templateId month year g' =
      (db1, .error ⟨409, "Entries Already Exist"⟩) := by
  obtain ⟨template, htmpl, hentries, hcnt, hdb1⟩ := generateDefault_ok_elim hok
  have hlen : 0 < res.entries.length := hcnt ▸ hcount
  obtain ⟨e0, he0⟩ : ∃ e, e ∈ res.entries := by
    cases h : res.entries with
    | nil => rw [h] at hlen; simp at hlen
    | cons a t => exact ⟨a, h ▸ List.mem_cons_self a t⟩
  obtain ⟨mb, hmb, hemb⟩ := List.mem_flatMap.mp (hentries ▸ he0)
  obtain ⟨hf1, hf2, hf3, hf4, hf5⟩ := memberDefaultEntries_fields hemb
  have he0db : e0 ∈ db1.entries := by
    rw [hdb1]; exact List.mem_append_right _ he0
  unfold generateDefaultKpiEntries
  rw [htmpl]
  dsimp only
  split
  · rfl
  · rename_i hcond
    exfalso
    apply hcond
    apply List.length_pos.mpr
    apply List.ne_nil_of_mem (a := e0)
    apply List.mem_filter.mpr
    refine ⟨he0db, ?_⟩
    have hmemid : e0.createdFor ∈
        (filterExcludedMembers
          (env.getMembers (some template.departmentSlug) (some template.role))).map
          (·.userId) := by
      rw [hf4]; exact List.mem_map_of_mem _ hmb
    simp [hf1, hf2, hf3, hf5, hwin1, hwin2]
    exact List.mem_map.mp hmemid

def c4wenv : Env :=
  { getTemplate := fun id => if id = "t1" then some c4template else none,
    getMemberByUserId := fun _ => none,
    getMembers := fun dept role =>
      if dept = some "revenue-department" && role = some "tehsildar" then [c4member]
      else [],
    now := ⟨2025, 2, 15, 0⟩ }

def c4wentry : KpiEntry := defaultEntry "t1" 3 2025 "system" c4member none c4wenv.now

theorem generateDefaultKpiEntries_second_call_conflict_witness :
    generateDefaultKpiEntries c4wenv ⟨[]⟩ "t1" 3 2025 "system" =
      ((⟨[c4wentry]⟩ : DB), .ok ⟨1, 1, [c4wentry]⟩) ∧
    (0 : Nat) < 1 ∧
    JsDate.le (mkJsDate 2025 (3 - 1) 1) c4wenv.now = true ∧
    JsDate.le c4wenv.now (mkJsDate 2025 3 0) = true ∧
    generateDefaultKpiEntries c4wenv ⟨[c4wentry]⟩ "t1" 3 2025 "again" =
      ((⟨[c4wentry]⟩ : DB), .error ⟨409, "Entries Already Exist"⟩) :=
  ⟨rfl, by decide, by decide, by decide,
    generateDefaultKpiEntries_second_call_conflict c4wenv ⟨[]⟩ ⟨[c4wentry]⟩
      "t1" 3 2025 "system" "again" ⟨1, 1, [c4wentry]⟩ rfl (by decide)
      (by decide) (by decide)⟩

/-- A member with two jurisdiction references. -/
def c5m1 : Member := ⟨"m1", "tehsildar", "revenue-department", ⟨["A", "B"], ["J1"]⟩⟩

/-- A member with no jurisdiction references. -/
def c5m2 : Member := ⟨"m2", "tehsildar", "revenue-department", ⟨[], []⟩⟩

def c5template : KpiTemplate := ⟨"T", "revenue-department", "tehsildar", []⟩

def c5env : Env :=
  { getTemplate := fun id => if id = "t1" then some c5template else none,
    getMemberByUserId := fun _ => none,
    getMembers := fun dept role =>
      if dept = some "revenue-department" && role = some "tehsildar" then [c5m1, c5m2]
      else [],
    now := ⟨2025, 2, 15, 0⟩ }

def c5list : List KpiEntry :=
  [defaultEntry "t1" 3 2025 "system" c5m1 (some "A") c5env.now,
   defaultEntry "t1" 3 2025 "system" c5m1 (some "B") c5env.now,
   defaultEntry "t1" 3 2025 "system" c5m2 none c5env.now]

/-- C5: in one successful `generateDefaultKpiEntries` call (over a
directory with distinct member ids), every eligible member with N ≥ 1
jurisdiction references gets exactly N entries, tagged one per reference in
order, and every eligible member with zero references gets exactly one
entry carrying no reference; concretely, two eligible members with
`kpirefs=["A","B"]` and `kpirefs=[]` yield exactly 3 entries. -/
theorem generateDefaultKpiEntries_fanout
    (env : Env) (db0 db1 : DB) (templateId : String) (month year : Int)
    (g : String) (res : GenerateResult) (template : KpiTemplate)
    (htmpl : env.getTemplate templateId = some template)
    (hok : generateDefaultKpiEntries env db0 templateId month year g = (db1, .ok res))
    (hnodup : (filterExcludedMembers
        (env.getMembers (some template.departmentSlug) (some template.role))).Pairwise
        (fun a b => a.userId ≠ b.userId)) :
    (∀ member ∈ filterExcludedMembers
        (env.getMembers (some template.departmentSlug) (some template.role)),
      (res.entries.filter (fun e => e.createdFor = member.userId)).map (·.kpirefs?) =
        if member.metadata.kpirefs = [] then [none]
        else member.metadata.kpirefs.map some) ∧
    generateDefaultKpiEntries c5env ⟨[]⟩ "t1" 3 2025 "system" =
      ((⟨c5list⟩ : DB), .ok ⟨3, 2, c5list⟩) := by
  obtain ⟨template', htmpl', hentries, hcnt, hdb1⟩ := generateDefault_ok_elim hok
  have heq : template' = template := Option.some.inj (htmpl'.symm.trans htmpl)
  subst heq
  refine ⟨?_, rfl⟩
  intro member hm
  rw [hentries,
    filter_flatMap_userId _ (fun mb e he => (memberDefaultEntries_fields he).2.2.2.1)
      _ hnodup member hm,
    memberDefaultEntries_kpirefs]

theorem generateDefaultKpiEntries_fanout_witness :
    (c5list.filter (fun e => e.createdFor = c5m1.userId)).map (·.kpirefs?) =
      [some "A", some "B"] := by
  have h := (generateDefaultKpiEntries_fanout c5env ⟨[]⟩ ⟨c5list⟩ "t1" 3 2025
    "system" ⟨3, 2, c5list⟩ c5template rfl rfl (by decide)).1 c5m1 (by decide)
  simpa using h

/-! ## Statistics aggregator

Embedding of
`KpiEntryService.getKpiEntriesStatisticsByDepartmentAndRoleWithMonthAndYear`.
The `page`/`limit` parameters only shape the pagination echo of the result
and the `availableFilters` / formatted month/year fields are presentational;
none of them participates in any claim, so they are not modelled.  The
month/year query parameters arrive as strings and are converted with
`Number(...)` before use; they are modelled as the converted numbers. -/

/-- Resolution of the requested period: negative `month` means "N months
before now" with calendar rollover; a `year` parameter, when present,
overrides the year (negative `year` meaning "N years before now").
JS `%` truncates (`Int.tmod`) and `Math.ceil(|x| / 12)` is ceiling
division. -/
def resolvePeriod (now : JsDate) (month? year? : Option Int) : Int × Int :=
  let currentMonth := now.month0 + 1
  let currentYear := now.year
  let firstPass : Int × Int :=
    match month? with
    | some monthValue =>
      if monthValue < 0 then
        let monthsToSubtract : Int := monthValue.natAbs
        let totalMonths := currentMonth - monthsToSubtract
        if totalMonths ≤ 0 then
          let yearsToSubtract : Int := (totalMonths.natAbs + 11) / 12
          let monthNum := 12 + totalMonths.tmod 12
          ((if monthNum = 0 then 12 else monthNum), currentYear - yearsToSubtract)
        else (totalMonths, currentYear)
      else (monthValue, year?.getD currentYear)
    | none => (currentMonth, year?.getD currentYear)
  match year? with
  | some yearValue =>
    if yearValue < 0 then (firstPass.1, currentYear + yearValue)
    else (firstPass.1, yearValue)
  | none => firstPass

/-- The KPI-entry query of the statistics endpoint: entries of the resolved
period, optionally restricted to one template. -/
def periodEntries (db : DB) (templateId? : Option String)
    (monthNum yearNum : Int) : List KpiEntry :=
  db.entries.filter fun e =>
    e.month = monthNum && e.year = yearNum &&
      (match templateId? with
       | some templateId => e.kpiTemplateId = templateId
       | none => true)

/-- One ranking row (presentational member fields omitted; no claim
mentions them). -/
structure RankingRow where
  memberId : String
  ranking : Nat
  totalScore : ℚ
  hasEntry : Bool
  entryId? : Option String
  status : String
  kpiref : String
deriving DecidableEq, Repr

/-- Build the row for one member/reference from its matching entry, if any:
`hasEntry` (and a nonzero score) only for `initiated` or `generated`. -/
def mkRankingRow (member : Member) (entry? : Option KpiEntry)
    (kpiref : String) : RankingRow :=
  match entry? with
  | none => ⟨member.userId, 0, 0, false, none, "no-entry", kpiref⟩
  | some entry =>
    if entry.status = "initiated" || entry.status = "generated" then
      ⟨member.userId, 0, entry.totalScore, true, some entry.id, entry.status, kpiref⟩
    else
      ⟨member.userId, 0, 0, false, some entry.id, entry.status, kpiref⟩

/-- The per-member loop over `filteredMembers`: members without references
get one row (fed by their first entry, any reference); members with
references get one row per reference, fed by the entries-map lookup, where
a later entry for the same (member, reference) overwrites an earlier one
(`Map.set`), hence `getLast?`. -/
def memberRankingRows (kpiEntries : List KpiEntry) (member : Member) :
    List RankingRow :=
  let memberKpirefs := member.metadata.kpirefs
  if memberKpirefs.length = 0 then
    [mkRankingRow member
      ((kpiEntries.filter (·.createdFor = member.userId)).head?) "no-kpiref"]
  else
    memberKpirefs.map fun kpiref =>
      mkRankingRow member
        ((kpiEntries.filter fun e =>
          e.createdFor = member.userId && e.kpirefs? = some kpiref).getLast?)
        kpiref

/-- `statusPriority`: generated > initiated > created > no-entry. -/
def statusPriority (s : String) : Nat :=
  if s = "generated" then 4
  else if s = "initiated" then 3
  else if s = "created" then 2
  else if s = "no-entry" then 1
  else 0

/-- The current-month comparator: priority descending, then score
descending (`a` may precede `b`). -/
def rankOrder (a b : RankingRow) : Prop :=
  statusPriority b.status < statusPriority a.status ∨
    (statusPriority a.status = statusPriority b.status ∧ b.totalScore ≤ a.totalScore)

instance : DecidableRel rankOrder := fun a b =>
  inferInstanceAs (Decidable (statusPriority b.status < statusPriority a.status ∨
    (statusPriority a.status = statusPriority b.status ∧
      b.totalScore ≤ a.totalScore)))

instance : IsTotal RankingRow rankOrder where
  total a b := by
    unfold rankOrder
    rcases lt_trichotomy (statusPriority a.status) (statusPriority b.status) with h | h | h
    · exact .inr (.inl h)
    · rcases le_total b.totalScore a.totalScore with h' | h'
      · exact .inl (.inr ⟨h, h'⟩)
      · exact .inr (.inr ⟨h.symm, h'⟩)
    · exact .inl (.inl h)

instance : IsTrans RankingRow rankOrder where
  trans a b c hab hbc := by
    unfold rankOrder at *
    rcases hab with h1 | ⟨h1, h1'⟩ <;> rcases hbc with h2 | ⟨h2, h2'⟩
    · exact .inl (h2.trans h1)
    · exact .inl (by rw [← h2]; exact h1)
    · exact .inl (by rw [h1]; exact h2)
    · exact .inr ⟨h1.trans h2, h2'.trans h1'⟩

/-- Rank assignment for the current month: traverse the (sorted) rows with
a counter that only advances on `generated` rows; everything else gets 0. -/
def assignRanksCurrent : List RankingRow → Nat → List RankingRow
  | [], _ => []
  | r :: rs, c =>
    if r.status = "generated" then
      { r with ranking := c } :: assignRanksCurrent rs (c + 1)
    else
      { r with ranking := 0 } :: assignRanksCurrent rs c

/-- The past-month comparator on index-tagged rows: score descending. -/
def scoreDescOrder (a b : Nat × RankingRow) : Prop :=
  b.2.totalScore ≤ a.2.totalScore

instance : DecidableRel scoreDescOrder := fun a b =>
  inferInstanceAs (Decidable (b.2.totalScore ≤ a.2.totalScore))

instance : IsTotal (Nat × RankingRow) scoreDescOrder :=
  ⟨fun a b => le_total b.2.totalScore a.2.totalScore⟩

instance : IsTrans (Nat × RankingRow) scoreDescOrder :=
  ⟨fun _ _ _ h1 h2 => le_trans h2 h1⟩

/-- The `generatedRankings` array of the past-month branch: the
position-tagged `generated` rows, sorted by score descending. -/
def sortedGenOf (rows : List RankingRow) : List (Nat × RankingRow) :=
  List.insertionSort scoreDescOrder
    (rows.enum.filter (fun q => q.2.status = "generated"))

/-- The rank a `generated` row at original position `p.1` receives in the
past-month branch: its position in the sorted generated sub-array, plus 1. -/
def pastRankOf (rows : List RankingRow) (p : Nat × RankingRow) : Nat :=
  (sortedGenOf rows).findIdx (fun q => q.1 = p.1) + 1

/-- Rank assignment for past months: the `generated` rows are sorted (as a
separate array of references to the same row objects) by score descending
and ranked 1, 2, …; all other rows get 0.  The shared mutation is modelled
positionally: the row at original position `i` receives the position of `i`
in the sorted generated sub-list, while the list keeps its original
order. -/
def assignRanksPast (rows : List RankingRow) : List RankingRow :=
  rows.enum.map fun p =>
    if p.2.status = "generated" then
      { p.2 with ranking := pastRankOf rows p }
    else
      { p.2 with ranking := 0 }

/-- The ranking policy switch: current month sorts everything and ranks the
`generated` rows sequentially; other months rank only the `generated` rows
by descending score, leaving the display order unchanged. -/
def applyRankingPolicy (now : JsDate) (monthNum yearNum : Int)
    (rankings : List RankingRow) : List RankingRow :=
  if monthNum = now.month0 + 1 && yearNum = now.year then
    assignRanksCurrent (List.insertionSort rankOrder rankings) 1
  else
    assignRanksPast rankings

/-- JS `Math.round`: half-up (toward +∞). -/
def jsRound (q : ℚ) : ℤ := ⌊q + 1 / 2⌋

/-- `Math.round(x * 100) / 100`. -/
def round2 (q : ℚ) : ℚ := (jsRound (q * 100) : ℚ) / 100

structure Statistics where
  totalRankings : Nat
  rankingsWithEntries : Nat
  rankingsWithoutEntries : Nat
  averageScore : ℚ
  highestScore : ℚ
  lowestScore : ℚ
  completionRate? : Option ℤ
deriving DecidableEq, Repr

/-- The statistics payload (formatted month/year returned as the resolved
numbers; pagination and available filters not modelled). -/
structure StatsResult where
  rankings : List RankingRow
  statistics : Statistics
  monthNum : Int
  yearNum : Int
deriving DecidableEq, Repr

/-- The success payload of the statistics endpoint: rankings built per
member/reference, ranked under the applicable policy, and the summary
statistics computed over the final (post-ranking) rankings array, exactly
as the tail of the source function computes them. -/
def statsPayload (env : Env) (db : DB)
    (templateId? department? role? : Option String)
    (month? year? : Option Int) : StatsResult :=
  let p := resolvePeriod env.now month? year?
  let monthNum := p.1
  let yearNum := p.2
  let filteredMembers : List Member :=
    filterExcludedMembers (env.getMembers department? role?)
  let kpiEntries : List KpiEntry := periodEntries db templateId? monthNum yearNum
  let rankings : List RankingRow :=
    filteredMembers.flatMap (memberRankingRows kpiEntries)
  let rankedRankings : List RankingRow :=
    applyRankingPolicy env.now monthNum yearNum rankings
  let totalRankings := rankedRankings.length
  let withEntries := (rankedRankings.filter (·.hasEntry)).length
  let averageScore : ℚ :=
    if withEntries > 0 then
      (rankedRankings.filter (·.hasEntry)).foldl
          (fun sum r => sum + r.totalScore) 0 / (withEntries : ℚ)
    else 0
  let highestScore :=
    match rankedRankings.head? with
    | some r => r.totalScore
    | none => 0
  let lowestScore :=
    if withEntries > 0 then
      (((rankedRankings.filter (·.hasEntry)).getLast?).map (·.totalScore)).getD 0
    else 0
  { rankings := rankedRankings,
    statistics :=
      { totalRankings := totalRankings,
        rankingsWithEntries := withEntries,
        rankingsWithoutEntries := totalRankings - withEntries,
        averageScore := round2 averageScore,
        highestScore := highestScore,
        lowestScore := lowestScore,
        completionRate? :=
          if totalRankings = 0 then none
          else some (jsRound ((withEntries : ℚ) / (totalRankings : ℚ) * 100)) },
    monthNum := monthNum, yearNum := yearNum }

/-- `KpiEntryService.getKpiEntriesStatisticsByDepartmentAndRoleWithMonthAndYear`.
`completionRate?` is `none` when there are no rows (JS divides by zero and
rounds NaN). -/
def getKpiEntriesStatisticsByDepartmentAndRoleWithMonthAndYear
    (env : Env) (db : DB) (templateId? department? role? : Option String)
    (month? year? : Option Int) : Except APIError StatsResult :=
  if (periodEntries db templateId? (resolvePeriod env.now month? year?).1
      (resolvePeriod env.now month? year?).2).length = 0 then
    .error ⟨404, "No KPI Entries Found"⟩
  else if ((match month? with
      | some mv =>
        decide (mv < 0) &&
          decide (((periodEntries db templateId?
            (resolvePeriod env.now month? year?).1
            (resolvePeriod env.now month? year?).2).filter
              (·.status = "generated")).length = 0)
      | none => false) : Bool) then
    .error ⟨404, "No Generated Reports Found"⟩
  else
    .ok (statsPayload env db templateId? department? role? month? year?)

/-- A successful statistics call returns exactly the payload. -/
lemma getStats_ok_payload {env : Env} {db : DB}
    {templateId? department? role? : Option String} {month? year? : Option Int}
    {res : StatsResult}
    (hok : getKpiEntriesStatisticsByDepartmentAndRoleWithMonthAndYear env db
      templateId? department? role? month? year? = .ok res) :
    res = statsPayload env db templateId? department? role? month? year? := by
  unfold getKpiEntriesStatisticsByDepartmentAndRoleWithMonthAndYear at hok
  by_cases h1 : (periodEntries db templateId? (resolvePeriod env.now month? year?).1
      (resolvePeriod env.now month? year?).2).length = 0
  · rw [if_pos h1] at hok; exact absurd hok (by simp)
  · rw [if_neg h1] at hok
    cases month? with
    | none =>
      simp only [Bool.false_eq_true, if_false] at hok
      exact (Except.ok.inj hok).symm
    | some mv =>
      dsimp only at hok
      by_cases h2 : (decide (mv < 0) &&
          decide (((periodEntries db templateId?
            (resolvePeriod env.now (some mv) year?).1
            (resolvePeriod env.now (some mv) year?).2).filter
              (·.status = "generated")).length = 0)) = true
      · rw [if_pos h2] at hok; exact absurd hok (by simp)
      · rw [if_neg h2] at hok; exact (Except.ok.inj hok).symm

/-! ## Claims about the statistics aggregator -/

/-- Wall clock 20 October 2025; empty member directory. -/
def c7env : Env :=
  { getTemplate := fun _ => none, getMemberByUserId := fun _ => none,
    getMembers := fun _ _ => [], now := ⟨2025, 9, 20, 0⟩ }

/-- A non-generated entry for March 2024, a period strictly in the past. -/
def c7entry : KpiEntry :=
  ⟨"eC", "t1", "mA", [], 0, "created", "system", 3, 2024, none, [],
    ⟨2024, 2, 1, 0⟩⟩

def c7run : Except APIError StatsResult :=
  getKpiEntriesStatisticsByDepartmentAndRoleWithMonthAndYear c7env ⟨[c7entry]⟩
    none none none (some 3) (some 2024)

/-- C7 counterexample: a statistics request for the absolute past period
March 2024 (current clock October 2025) over entries none of which is
`generated` succeeds — the "reports not yet generated" NotFound is only
raised when the month parameter is a negative offset, not for absolute past
periods. -/
theorem getStats_past_period_counterexample :
    resolvePeriod c7env.now (some 3) (some 2024) = (3, 2024) ∧
    c7env.now.year = 2025 ∧ c7env.now.month0 + 1 = 10 ∧
    periodEntries ⟨[c7entry]⟩ none 3 2024 = [c7entry] ∧
    c7entry.status ≠ "generated" ∧
    c7run.isOk = true := by
  refine ⟨rfl, rfl, rfl, rfl, by decide, rfl⟩

/-- C7 (amended): the requirement of at least one `generated` entry applies
exactly to requests whose month parameter is a negative offset: for every
such request over a period that has entries but no `generated` one, the
call fails with NotFound ("No Generated Reports Found"); a past period
addressed by absolute month/year skips the requirement. -/
theorem getStats_negative_month_requires_generated
    (env : Env) (db : DB) (templateId? department? role? : Option String)
    (mv : Int) (year? : Option Int) (hneg : mv < 0)
    (hexists : ¬(periodEntries db templateId?
        (resolvePeriod env.now (some mv) year?).1
        (resolvePeriod env.now (some mv) year?).2).length = 0)
    (hnogen : ((periodEntries db templateId?
        (resolvePeriod env.now (some mv) year?).1
        (resolvePeriod env.now (some mv) year?).2).filter
          (·.status = "generated")).length = 0) :
    getKpiEntriesStatisticsByDepartmentAndRoleWithMonthAndYear env db
        templateId? department? role? (some mv) year? =
      .error ⟨404, "No Generated Reports Found"⟩ := by
  unfold getKpiEntriesStatisticsByDepartmentAndRoleWithMonthAndYear
  rw [if_neg hexists, if_pos]
  simp [hneg, hnogen]

/-- A non-generated entry for September 2025, one month before `c7env`'s
clock. -/
def c7wentry : KpiEntry :=
  ⟨"eD", "t1", "mA", [], 0, "created", "system", 9, 2025, none, [],
    ⟨2025, 8, 1, 0⟩⟩

theorem getStats_negative_month_requires_generated_witness :
    (-1 : Int) < 0 ∧
    ¬(periodEntries ⟨[c7wentry]⟩ none
        (resolvePeriod c7env.now (some (-1)) none).1
        (resolvePeriod c7env.now (some (-1)) none).2).length = 0 ∧
    getKpiEntriesStatisticsByDepartmentAndRoleWithMonthAndYear c7env
        ⟨[c7wentry]⟩ none none none (some (-1)) none =
      .error ⟨404, "No Generated Reports Found"⟩ :=
  ⟨by decide, by decide,
    getStats_negative_month_requires_generated c7env ⟨[c7wentry]⟩ none none
      none (-1) none (by decide) (by decide) (by decide)⟩

lemma assignRanksCurrent_nongen (rs : List RankingRow) (c : Nat) :
    ∀ row ∈ assignRanksCurrent rs c, row.status ≠ "generated" → row.ranking = 0 := by
  induction rs generalizing c with
  | nil => simp [assignRanksCurrent]
  | cons r rs ih =>
    intro row hrow hne
    unfold assignRanksCurrent at hrow
    by_cases h : r.status = "generated"
    · rw [if_pos h] at hrow
      rcases List.mem_cons.mp hrow with rfl | hmem
      · exact absurd h hne
      · exact ih (c + 1) row hmem hne
    · rw [if_neg h] at hrow
      rcases List.mem_cons.mp hrow with rfl | hmem
      · rfl
      · exact ih c row hmem hne

lemma assignRanksCurrent_gen_ranks (rs : List RankingRow) (c : Nat) :
    ((assignRanksCurrent rs c).filter (fun r => r.status = "generated")).map
        (·.ranking) =
      List.range' c ((rs.filter (fun r => r.status = "generated")).length) := by
  induction rs generalizing c with
  | nil => rfl
  | cons r rs ih =>
    unfold assignRanksCurrent
    by_cases h : r.status = "generated"
    · rw [if_pos h]
      simp [List.filter_cons, h, List.range'_succ, ih (c + 1)]
    · rw [if_neg h]
      simp [List.filter_cons, h, ih c]

lemma assignRanksPast_nongen (rows : List RankingRow) :
    ∀ row ∈ assignRanksPast rows, row.status ≠ "generated" → row.ranking = 0 := by
  intro row hrow hne
  unfold assignRanksPast at hrow
  obtain ⟨p, _, hpe⟩ := List.mem_map.mp hrow
  by_cases h : p.2.status = "generated"
  · rw [if_pos h] at hpe; subst hpe; exact absurd h hne
  · rw [if_neg h] at hpe; subst hpe; rfl

lemma gen_fst_nodup (rows : List RankingRow) :
    ((rows.enum.filter (fun p => p.2.status = "generated")).map Prod.fst).Nodup := by
  have h1 : (rows.enum.map Prod.fst).Nodup := by
    rw [List.enum_map_fst]; exact List.nodup_range _
  exact h1.sublist ((List.filter_sublist _).map Prod.fst)

lemma findIdx_fst_get (l : List (Nat × RankingRow))
    (hnd : (l.map Prod.fst).Nodup) (j : Fin l.length) :
    l.findIdx (fun q => q.1 = (l.get j).1) = j := by
  induction l with
  | nil => exact absurd j.isLt (by simp)
  | cons a t ih =>
    rcases j with ⟨jv, hj⟩
    rw [List.map_cons, List.nodup_cons] at hnd
    cases jv with
    | zero => simp [List.findIdx_cons]
    | succ i =>
      have hit : i < t.length := by simpa using hj
      have hget : ((a :: t).get ⟨i + 1, hj⟩) = t.get ⟨i, hit⟩ := rfl
      have hne : ¬a.1 = (t.get ⟨i, hit⟩).1 := by
        intro hEq
        exact hnd.1 (hEq ▸ List.mem_map_of_mem Prod.fst (t.get_mem _ _))
      have hdec : (decide (a.1 = (t.get ⟨i, hit⟩).1)) = false := by simpa using hne
      rw [hget, List.findIdx_cons, hdec]
      simp only [cond_false]
      rw [ih hnd.2 ⟨i, hit⟩]

lemma map_rank_sorted (l : List (Nat × RankingRow))
    (hnd : (l.map Prod.fst).Nodup) :
    l.map (fun p => l.findIdx (fun q => q.1 = p.1) + 1) =
      List.range' 1 l.length := by
  apply List.ext_get
  · simp
  · intro n h1 h2
    have hn : n < l.length := by simpa using h1
    simp only [List.get_eq_getElem, List.getElem_map]
    have := findIdx_fst_get l hnd ⟨n, hn⟩
    simp only [List.get_eq_getElem] at this ⊢
    rw [this]
    simp [List.getElem_range']
    omega

lemma enum_filter_length (rows : List RankingRow) :
    (rows.enum.filter (fun p => p.2.status = "generated")).length =
      (rows.filter (fun r => r.status = "generated")).length := by
  have h : ((rows.enum.filter (fun p => p.2.status = "generated")).map Prod.snd) =
      rows.filter (fun r => r.status = "generated") := by
    conv_rhs => rw [← List.enum_map_snd rows]
    rw [List.filter_map]
    rfl
  rw [← h, List.length_map]

lemma sortedGenOf_fst_nodup (rows : List RankingRow) :
    ((sortedGenOf rows).map Prod.fst).Nodup :=
  ((List.perm_insertionSort scoreDescOrder _).map Prod.fst).nodup_iff.mpr
    (gen_fst_nodup rows)

lemma assignRanksPast_filter_gen (rows : List RankingRow) :
    (assignRanksPast rows).filter (fun r => r.status = "generated") =
      (rows.enum.filter (fun p => p.2.status = "generated")).map
        (fun p => { p.2 with ranking := pastRankOf rows p }) := by
  unfold assignRanksPast
  rw [List.filter_map]
  have hfil : rows.enum.filter ((fun r => decide (r.status = "generated")) ∘
        (fun p => if p.2.status = "generated" then
            ({ p.2 with ranking := pastRankOf rows p } : RankingRow)
          else { p.2 with ranking := 0 })) =
      rows.enum.filter (fun p => p.2.status = "generated") := by
    apply List.filter_congr
    intro p _
    by_cases b : p.2.status = "generated" <;> simp [b]
  rw [hfil]
  apply List.map_congr_left
  intro p hp
  have b : p.2.status = "generated" := by
    simpa using (List.mem_filter.mp hp).2
  simp [b]

lemma assignRanksPast_gen_ranks (rows : List RankingRow) :
    (((assignRanksPast rows).filter (fun r => r.status = "generated")).map
        (·.ranking)).Perm
      (List.range' 1 ((rows.filter (fun r => r.status = "generated")).length)) := by
  rw [assignRanksPast_filter_gen, List.map_map]
  have hcomp : (rows.enum.filter (fun p => p.2.status = "generated")).map
        ((fun (r : RankingRow) => r.ranking) ∘
          (fun p => ({ p.2 with ranking := pastRankOf rows p } : RankingRow))) =
      (rows.enum.filter (fun p => p.2.status = "generated")).map
        (fun p => (sortedGenOf rows).findIdx (fun q => q.1 = p.1) + 1) := rfl
  rw [hcomp]
  have hperm : List.Perm (sortedGenOf rows)
      (rows.enum.filter (fun q => q.2.status = "generated")) :=
    List.perm_insertionSort _ _
  have hmapperm :
      List.Perm ((rows.enum.filter (fun q => q.2.status = "generated")).map
          (fun p => (sortedGenOf rows).findIdx (fun q => q.1 = p.1) + 1))
        ((sortedGenOf rows).map
          (fun p => (sortedGenOf rows).findIdx (fun q => q.1 = p.1) + 1)) :=
    (hperm.map _).symm
  rw [map_rank_sorted (sortedGenOf rows) (sortedGenOf_fst_nodup rows)] at hmapperm
  have hlen : (sortedGenOf rows).length =
      (rows.filter (fun r => r.status = "generated")).length := by
    rw [hperm.length_eq]
    exact enum_filter_length rows
  rw [hlen] at hmapperm
  exact hmapperm

lemma assignRanksPast_desc (rows : List RankingRow) :
    ∀ r1 ∈ assignRanksPast rows, ∀ r2 ∈ assignRanksPast rows,
      r1.status = "generated" → r2.status = "generated" →
      r1.ranking < r2.ranking → r2.totalScore ≤ r1.totalScore := by
  intro r1 h1 r2 h2 hg1 hg2 hlt
  unfold assignRanksPast at h1 h2
  obtain ⟨p1, hp1, he1⟩ := List.mem_map.mp h1
  obtain ⟨p2, hp2, he2⟩ := List.mem_map.mp h2
  by_cases b1 : p1.2.status = "generated"
  case neg => rw [if_neg b1] at he1; subst he1; exact absurd hg1 b1
  by_cases b2 : p2.2.status = "generated"
  case neg => rw [if_neg b2] at he2; subst he2; exact absurd hg2 b2
  rw [if_pos b1] at he1
  rw [if_pos b2] at he2
  subst he1
  subst he2
  have hg1' : p1 ∈ rows.enum.filter (fun q => q.2.status = "generated") :=
    List.mem_filter.mpr ⟨hp1, by simp [b1]⟩
  have hg2' : p2 ∈ rows.enum.filter (fun q => q.2.status = "generated") :=
    List.mem_filter.mpr ⟨hp2, by simp [b2]⟩
  have hperm : List.Perm (sortedGenOf rows)
      (rows.enum.filter (fun q => q.2.status = "generated")) :=
    List.perm_insertionSort _ _
  obtain ⟨j1, hj1⟩ := List.mem_iff_get.mp (hperm.mem_iff.mpr hg1')
  obtain ⟨j2, hj2⟩ := List.mem_iff_get.mp (hperm.mem_iff.mpr hg2')
  have hidx1 : (sortedGenOf rows).findIdx (fun q => q.1 = p1.1) = j1 := by
    rw [← hj1]; exact findIdx_fst_get _ (sortedGenOf_fst_nodup rows) j1
  have hidx2 : (sortedGenOf rows).findIdx (fun q => q.1 = p2.1) = j2 := by
    rw [← hj2]; exact findIdx_fst_get _ (sortedGenOf_fst_nodup rows) j2
  have hlt' : pastRankOf rows p1 < pastRankOf rows p2 := hlt
  have hjlt : j1 < j2 := by
    unfold pastRankOf at hlt'
    rw [hidx1, hidx2] at hlt'
    exact Nat.lt_of_add_lt_add_right hlt'
  have hsorted : (sortedGenOf rows).Sorted scoreDescOrder :=
    List.sorted_insertionSort _ _
  have hrel := (List.pairwise_iff_get.mp hsorted) j1 j2 hjlt
  rw [hj1, hj2] at hrel
  exact hrel

/-- C8: in every successful statistics result, a row whose status is not
`generated` has rank 0; when the resolved period is the current month/year,
the `generated` rows carry the sequential ranks 1, 2, … in display (sorted)
order; otherwise (past period) the `generated` rows carry exactly the ranks
1 … k in some order, assigned by descending `totalScore` (a lower rank
never has a lower score). -/
theorem getStats_ranking_policy
    (env : Env) (db : DB) (templateId? department? role? : Option String)
    (month? year? : Option Int) (res : StatsResult)
    (hok : getKpiEntriesStatisticsByDepartmentAndRoleWithMonthAndYear env db
      templateId? department? role? month? year? = .ok res) :
    (∀ row ∈ res.rankings, row.status ≠ "generated" → row.ranking = 0) ∧
    ((resolvePeriod env.now month? year?).1 = env.now.month0 + 1 ∧
        (resolvePeriod env.now month? year?).2 = env.now.year →
      (res.rankings.filter (fun r => r.status = "generated")).map (·.ranking) =
        List.range' 1
          ((res.rankings.filter (fun r => r.status = "generated")).length)) ∧
    (¬((resolvePeriod env.now month? year?).1 = env.now.month0 + 1 ∧
        (resolvePeriod env.now month? year?).2 = env.now.year) →
      ((res.rankings.filter (fun r => r.status = "generated")).map
          (·.ranking)).Perm
        (List.range' 1
          ((res.rankings.filter (fun r => r.status = "generated")).length)) ∧
      ∀ r1 ∈ res.rankings, ∀ r2 ∈ res.rankings,
        r1.status = "generated" → r2.status = "generated" →
        r1.ranking < r2.ranking → r2.totalScore ≤ r1.totalScore) := by
  have hres := getStats_ok_payload hok
  set raw : List RankingRow :=
    (filterExcludedMembers (env.getMembers department? role?)).flatMap
      (memberRankingRows (periodEntries db templateId?
        (resolvePeriod env.now month? year?).1
        (resolvePeriod env.now month? year?).2)) with hrawdef
  have hrank : res.rankings =
      applyRankingPolicy env.now (resolvePeriod env.now month? year?).1
        (resolvePeriod env.now month? year?).2 raw := by
    rw [hres]; rfl
  by_cases hcur : (resolvePeriod env.now month? year?).1 = env.now.month0 + 1 ∧
      (resolvePeriod env.now month? year?).2 = env.now.year
  · have hbranch : applyRankingPolicy env.now
        (resolvePeriod env.now month? year?).1
        (resolvePeriod env.now month? year?).2 raw =
        assignRanksCurrent (List.insertionSort rankOrder raw) 1 := by
      unfold applyRankingPolicy
      rw [if_pos (by simp [hcur.1, hcur.2])]
    refine ⟨?_, fun _ => ?_, fun hc => absurd hcur hc⟩
    · intro row hrow
      rw [hrank, hbranch] at hrow
      exact assignRanksCurrent_nongen _ 1 row hrow
    · rw [hrank, hbranch]
      have h := assignRanksCurrent_gen_ranks (List.insertionSort rankOrder raw) 1
      have hk := congrArg List.length h
      simp only [List.length_map, List.length_range'] at hk
      rw [h, hk]
  · have hbranch : applyRankingPolicy env.now
        (resolvePeriod env.now month? year?).1
        (resolvePeriod env.now month? year?).2 raw = assignRanksPast raw := by
      unfold applyRankingPolicy
      rw [if_neg]
      simp only [Bool.and_eq_true, decide_eq_true_eq]
      exact fun h => hcur ⟨h.1, h.2⟩
    refine ⟨?_, fun hc => absurd hc hcur, fun _ => ⟨?_, ?_⟩⟩
    · intro row hrow
      rw [hrank, hbranch] at hrow
      exact assignRanksPast_nongen _ row hrow
    · rw [hrank, hbranch]
      have h := assignRanksPast_gen_ranks raw
      have hk := h.length_eq
      simp only [List.length_map, List.length_range'] at hk
      rw [hk]
      exact h
    · intro r1 h1 r2 h2
      rw [hrank, hbranch] at h1 h2
      exact assignRanksPast_desc raw r1 h1 r2 h2

def c8mA : Member := ⟨"mA", "tehsildar", "revenue-department", ⟨[], []⟩⟩

def c8mB : Member := ⟨"mB", "tehsildar", "revenue-department", ⟨[], []⟩⟩

/-- Wall clock October 2025; the directory has two undivided members. -/
def c8env : Env :=
  { getTemplate := fun _ => none, getMemberByUserId := fun _ => none,
    getMembers := fun _ _ => [c8mA, c8mB], now := ⟨2025, 9, 20, 0⟩ }

/-- Two `generated` September 2025 entries with scores 5 and 50. -/
def c8db : DB :=
  ⟨[⟨"eE", "t1", "mA", [], 5, "generated", "s", 9, 2025, none, [], ⟨2025, 8, 1, 0⟩⟩,
    ⟨"eF", "t1", "mB", [], 50, "generated", "s", 9, 2025, none, [], ⟨2025, 8, 1, 0⟩⟩]⟩

theorem getStats_ranking_policy_witness :
    getKpiEntriesStatisticsByDepartmentAndRoleWithMonthAndYear c8env c8db
        none none none (some 9) (some 2025) =
      .ok (statsPayload c8env c8db none none none (some 9) (some 2025)) ∧
    (((statsPayload c8env c8db none none none (some 9) (some 2025)).rankings.filter
          (fun r => r.status = "generated")).map (·.ranking)).Perm
      (List.range' 1
        (((statsPayload c8env c8db none none none (some 9) (some 2025)).rankings.filter
            (fun r => r.status = "generated")).length)) :=
  ⟨rfl,
    ((getStats_ranking_policy c8env c8db none none none (some 9) (some 2025)
        (statsPayload c8env c8db none none none (some 9) (some 2025)) rfl).2.2
      (by decide)).1⟩

lemma foldl_score_sum (l : List RankingRow) (init : ℚ) :
    l.foldl (fun s r => s + r.totalScore) init =
      init + (l.map (·.totalScore)).sum := by
  induction l generalizing init with
  | nil => simp
  | cons r t ih => simp [ih, add_assoc]

def c9mA : Member := ⟨"mA", "tehsildar", "revenue-department", ⟨[], []⟩⟩

def c9mB : Member := ⟨"mB", "tehsildar", "revenue-department", ⟨[], []⟩⟩

/-- Wall clock 20 October 2025, two undivided members. -/
def c9env : Env :=
  { getTemplate := fun _ => none, getMemberByUserId := fun _ => none,
    getMembers := fun _ _ => [c9mA, c9mB], now := ⟨2025, 9, 20, 0⟩ }

/-- Current-month entries: a `generated` one scoring 5 and an `initiated`
one scoring 50. -/
def c9db : DB :=
  ⟨[⟨"eA", "t1", "mA", [], 5, "generated", "s", 10, 2025, none, [], ⟨2025, 9, 1, 0⟩⟩,
    ⟨"eB", "t1", "mB", [], 50, "initiated", "s", 10, 2025, none, [], ⟨2025, 9, 1, 0⟩⟩]⟩

def c9res : StatsResult := statsPayload c9env c9db none none none none none

/-- C9 counterexample: with a `generated` row scoring 5 and an `initiated`
row scoring 50 (both rows having entries), the summary reports
`highestScore = 5` — the first row of the status-sorted array, not the
maximum 50 — and `lowestScore = 50` — the last entry-bearing row, not the
minimum 5. -/
theorem getStats_summary_counterexample :
    getKpiEntriesStatisticsByDepartmentAndRoleWithMonthAndYear c9env c9db
        none none none none none = .ok c9res ∧
    c9res.statistics.highestScore = 5 ∧
    c9res.statistics.lowestScore = 50 ∧
    (c9res.rankings.filter (·.hasEntry)).map (·.totalScore) = [5, 50] ∧
    ¬(5 : ℚ) = 50 :=
  ⟨rfl, rfl, rfl, rfl, by norm_num⟩

/-- C9 (amended): in every successful statistics result, `highestScore` is
the `totalScore` of the FIRST row of the final (post-sort) rankings array
(0 when there are no rows) rather than the maximum over rows with an entry;
`lowestScore` is the `totalScore` of the LAST entry-bearing row in that
display order (0 when none) rather than the minimum; and `averageScore` is
the mean `totalScore` over rows with an entry, rounded to two decimals with
JS `Math.round` semantics (0 when no row has an entry). -/
theorem getStats_summary_fields
    (env : Env) (db : DB) (templateId? department? role? : Option String)
    (month? year? : Option Int) (res : StatsResult)
    (hok : getKpiEntriesStatisticsByDepartmentAndRoleWithMonthAndYear env db
      templateId? department? role? month? year? = .ok res) :
    res.statistics.highestScore = ((res.rankings.head?).map (·.totalScore)).getD 0 ∧
    res.statistics.lowestScore =
      ((((res.rankings.filter (·.hasEntry)).getLast?).map (·.totalScore)).getD 0) ∧
    res.statistics.averageScore =
      (if 0 < (res.rankings.filter (·.hasEntry)).length then
        round2 (((res.rankings.filter (·.hasEntry)).map (·.totalScore)).sum /
          ((res.rankings.filter (·.hasEntry)).length : ℚ))
      else 0) := by
  have hres := getStats_ok_payload hok
  subst hres
  refine ⟨?_, ?_, ?_⟩
  · cases hh : (statsPayload env db templateId? department? role?
        month? year?).rankings.head? with
    | none =>
      have hkey : (statsPayload env db templateId? department? role?
            month? year?).statistics.highestScore =
          (match (statsPayload env db templateId? department? role?
              month? year?).rankings.head? with
            | some r => r.totalScore
            | none => 0) := rfl
      rw [hkey, hh]
      rfl
    | some r =>
      have hkey : (statsPayload env db templateId? department? role?
            month? year?).statistics.highestScore =
          (match (statsPayload env db templateId? department? role?
              month? year?).rankings.head? with
            | some r => r.totalScore
            | none => 0) := rfl
      rw [hkey, hh]
      rfl
  · by_cases hlen : 0 < ((statsPayload env db templateId? department? role?
        month? year?).rankings.filter (·.hasEntry)).length
    · show (if 0 < ((statsPayload env db templateId? department? role?
          month? year?).rankings.filter (·.hasEntry)).length then
          ((((statsPayload env db templateId? department? role?
            month? year?).rankings.filter (·.hasEntry)).getLast?).map
              (·.totalScore)).getD 0
        else 0) = _
      rw [if_pos hlen]
    · show (if 0 < ((statsPayload env db templateId? department? role?
          month? year?).rankings.filter (·.hasEntry)).length then
          ((((statsPayload env db templateId? department? role?
            month? year?).rankings.filter (·.hasEntry)).getLast?).map
              (·.totalScore)).getD 0
        else 0) = _
      rw [if_neg hlen]
      have hnil : ((statsPayload env db templateId? department? role?
          month? year?).rankings.filter (·.hasEntry)) = [] := by
        rcases List.eq_nil_or_concat ((statsPayload env db templateId?
          department? role? month? year?).rankings.filter (·.hasEntry)) with h | ⟨l, a, h⟩
        · exact h
        · exact absurd (by simp [h]) hlen
      rw [hnil]; rfl
  · by_cases hlen : 0 < ((statsPayload env db templateId? department? role?
        month? year?).rankings.filter (·.hasEntry)).length
    · show round2 (if 0 < ((statsPayload env db templateId? department? role?
          month? year?).rankings.filter (·.hasEntry)).length then
          ((statsPayload env db templateId? department? role?
            month? year?).rankings.filter (·.hasEntry)).foldl
              (fun sum r => sum + r.totalScore) 0 /
            ((((statsPayload env db templateId? department? role?
              month? year?).rankings.filter (·.hasEntry)).length : Nat) : ℚ)
        else 0) = _
      rw [if_pos hlen, if_pos hlen, foldl_score_sum, zero_add]
    · show round2 (if 0 < ((statsPayload env db templateId? department? role?
          month? year?).rankings.filter (·.hasEntry)).length then
          ((statsPayload env db templateId? department? role?
            month? year?).rankings.filter (·.hasEntry)).foldl
              (fun sum r => sum + r.totalScore) 0 /
            ((((statsPayload env db templateId? department? role?
              month? year?).rankings.filter (·.hasEntry)).length : Nat) : ℚ)
        else 0) = _
      rw [if_neg hlen, if_neg hlen]
      show round2 0 = 0
      show (⌊(0 : ℚ) * 100 + 1 / 2⌋ : ℚ) / 100 = 0
      norm_num

theorem getStats_summary_fields_witness :
    getKpiEntriesStatisticsByDepartmentAndRoleWithMonthAndYear c9env c9db
        none none none none none = .ok c9res ∧
    c9res.statistics.highestScore = ((c9res.rankings.head?).map (·.totalScore)).getD 0 :=
  ⟨rfl, (getStats_summary_fields c9env c9db none none none none none c9res rfl).1⟩

end KpiService
